import Mathlib

/-!
Shallow embedding of the BlogsSite Flask application (src/main.py, src/forms.py).

The entity store (three relational tables backed by SQLAlchemy over SQLite) is
modelled as lists of rows plus autoincrement counters.  Each route handler of
src/main.py becomes a pure function from the request data, the current session
and the store to a `HandlerResult` holding the new store, the HTTP response,
the flash messages emitted during the request, and the session after the
request.  External collaborators (the wtforms Email and URL validators and the
werkzeug password hashing functions) are passed in as parameters, mirroring the
spec, which treats them as out-of-scope collaborators.

Database semantics follow the configuration of the repository: SQLite (the
default in both the production fallback and the test fixtures), where foreign
keys are not enforced, while NOT NULL and UNIQUE constraints are.  The
SQLAlchemy relationship `BlogPost.comments` carries no delete cascade, so an
ORM-level delete of a post that still owns comments attempts to null out the
non-nullable `comments.blog_post_id` column and fails with an IntegrityError;
`delete_post` does not catch it, which surfaces as an HTTP 500 with nothing
committed.
-/

namespace BlogsSite

/-- Row of the `users` table (src/main.py, class User, lines 85-95). -/
structure User where
  id : Nat
  email : String
  password : String
  name : String
  deriving DecidableEq, Repr

/-- Row of the `blog_posts` table (src/main.py, class BlogPost, lines 70-83). -/
structure BlogPost where
  id : Nat
  title : String
  subtitle : String
  date : String
  body : String
  author_id : Nat
  img_url : String
  deriving DecidableEq, Repr

/-- Row of the `comments` table (src/main.py, class Comment, lines 97-107). -/
structure Comment where
  id : Nat
  text : String
  author_id : Nat
  blog_post_id : Nat
  deriving DecidableEq, Repr

/-- The relational store: the three tables plus the autoincrement counters of
their integer primary keys. -/
structure Store where
  users : List User
  blog_posts : List BlogPost
  comments : List Comment
  nextUserId : Nat
  nextPostId : Nat
  nextCommentId : Nat
  deriving DecidableEq, Repr

/-- HTTP response produced by a handler: a rendered template (with status code
and the per-field errors of the form passed to the template), a redirect with
its Location value exactly as the code builds it, or an abort with a status
code (403, 404, or 500 for an uncaught exception). -/
inductive HttpResponse where
  | render (tpl : String) (status : Nat) (formErrors : List String)
  | redirect (location : String)
  | httpAbort (status : Nat)
  deriving DecidableEq, Repr

/-- Result of running one request: the store after the request, the response,
the flash messages emitted, and the session (the logged-in user id, if any)
after the request. -/
structure HandlerResult where
  store : Store
  response : HttpResponse
  flashes : List String
  session : Option Nat
  deriving DecidableEq, Repr

/-- External wtforms validators (Email and URL) from src/forms.py; they are
collaborating libraries, so the handlers take them as parameters. -/
structure Validators where
  emailOk : String → Bool
  urlOk : String → Bool

/-- External werkzeug password hashing (generate_password_hash with the fixed
method and salt used at src/main.py lines 159-163, and check_password_hash
taking the stored hash and the provided password). -/
structure PasswordHasher where
  generate : String → String
  check : String → String → Bool

/-- The wtforms DataRequired validator: the field fails when its data is falsy
(the empty string) or consists only of whitespace, i.e. it passes exactly when
some character is not whitespace. -/
def dataRequired (s : String) : Bool :=
  s.toList.any (fun ch => !(ch.isWhitespace))

/-- Per-field errors of Login_Form (src/forms.py lines 22-25): email is
required and must look like an email; password is required and must have at
least 6 characters. -/
def loginFormErrors (v : Validators) (email password : String) : List String :=
  (if dataRequired email then [] else ["This field is required."]) ++
  (if v.emailOk email then [] else ["Invalid email."]) ++
  (if dataRequired password then [] else ["This field is required."]) ++
  (if password.length ≥ 6 then [] else ["Password must be at least 6 chars."])

/-- Per-field errors of Register_Form (src/forms.py lines 16-20): like the
login form plus a required name. -/
def registerFormErrors (v : Validators) (email password name : String) : List String :=
  loginFormErrors v email password ++
  (if dataRequired name then [] else ["This field is required."])

/-- Per-field errors of Add_Post_Form (src/forms.py lines 8-14): title,
subtitle, image URL and body are required, and the image URL must be a
well-formed URL. -/
def addPostFormErrors (v : Validators) (title subtitle bg_img_url blog_content : String) :
    List String :=
  (if dataRequired title then [] else ["This field is required."]) ++
  (if dataRequired subtitle then [] else ["This field is required."]) ++
  (if dataRequired bg_img_url then [] else ["This field is required."]) ++
  (if v.urlOk bg_img_url then [] else ["Invalid URL."]) ++
  (if dataRequired blog_content then [] else ["This field is required."])

/-- Per-field errors of Comment_Form (src/forms.py lines 27-29): the text is
required. -/
def commentFormErrors (text : String) : List String :=
  if dataRequired text then [] else ["This field is required."]

/-- The URL url_for builds for the get_all_posts endpoint. -/
def urlForGetAllPosts : String := "/"

/-- The URL url_for builds for the login endpoint. -/
def urlForLogin : String := "/login"

/-- The URL url_for builds for the show_post endpoint of a given post id. -/
def urlForShowPost (post_id : Nat) : String := "/" ++ toString post_id

/-- Lookup User.query.filter_by(email=email).first() (src/main.py lines 151,
192): the first stored user with exactly (case-sensitively) that email. -/
def findUserByEmail (s : Store) (email : String) : Option User :=
  s.users.find? (fun u => u.email == email)

/-- Lookup db.session.get(BlogPost, post_id) (src/main.py lines 241, 296): the
stored post with that primary key. -/
def getPost (s : Store) (post_id : Nat) : Option BlogPost :=
  s.blog_posts.find? (fun p => p.id == post_id)

/-- The posts shown by the get_all_posts handler (src/main.py lines 219-222):
all rows of blog_posts. -/
def get_all_posts (s : Store) : List BlogPost :=
  s.blog_posts

/-- The current_user id inside an admin-gated handler body; the gate
guarantees the session is `some 1`, so the default 0 of the anonymous case is
never reached there. -/
def currentUserId : Option Nat → Nat
  | some uid => uid
  | none => 0

/-- The admin_only decorator (src/main.py lines 115-133): the wrapped body
runs only when the caller is authenticated with user id 1; every other caller
gets abort(403) before any effect of the body. -/
def admin_only (session : Option Nat) (store : Store) (body : Unit → HandlerResult) :
    HandlerResult :=
  match session with
  | some uid =>
      if uid = 1 then body ()
      else { store := store, response := .httpAbort 403, flashes := [], session := session }
  | none => { store := store, response := .httpAbort 403, flashes := [], session := session }

/-- The register handler (src/main.py lines 140-180).  On a valid submission:
a duplicate email flashes a message and redirects to the relative location
"login"; otherwise the password is hashed, the user row is inserted, logged in
(session set to the fresh id) and the caller redirected to the post list.  An
invalid submission re-renders the form. -/
def register (v : Validators) (h : PasswordHasher) (store : Store) (session : Option Nat)
    (email password name : String) : HandlerResult :=
  let errors := registerFormErrors v email password name
  if errors = [] then
    match findUserByEmail store email with
    | some _ =>
        { store := store, response := .redirect "login",
          flashes := ["Email " ++ email ++ " already exists! Login instead."],
          session := session }
    | none =>
        let newUser : User :=
          { id := store.nextUserId, email := email, password := h.generate password,
            name := name }
        let store2 : Store :=
          { store with users := store.users ++ [newUser], nextUserId := store.nextUserId + 1 }
        { store := store2, response := .redirect urlForGetAllPosts, flashes := [],
          session := some newUser.id }
  else
    { store := store, response := .render "register.html" 200 errors, flashes := [],
      session := session }

/-- The login handler (src/main.py lines 182-211).  On a valid submission: an
unknown email flashes the generic message and redirects to the relative
location "login"; a known email with a non-verifying password flashes the same
generic message but redirects to url_for, the absolute "/login"; a verifying
password logs the user in and redirects to the post list.  An invalid
submission re-renders the form. -/
def login (v : Validators) (h : PasswordHasher) (store : Store) (session : Option Nat)
    (email password : String) : HandlerResult :=
  let errors := loginFormErrors v email password
  if errors = [] then
    match findUserByEmail store email with
    | none =>
        { store := store, response := .redirect "login",
          flashes := ["Credentials are not valid!"], session := session }
    | some u =>
        if h.check u.password password then
          { store := store, response := .redirect urlForGetAllPosts, flashes := [],
            session := some u.id }
        else
          { store := store, response := .redirect urlForLogin,
            flashes := ["Credentials are not valid!"], session := session }
  else
    { store := store, response := .render "login.html" 200 errors, flashes := [],
      session := session }

/-- The show_post handler (src/main.py lines 224-245).  `posted` is true for a
POST submission of the comment form.  When the form validates on submit: an
authenticated caller gets a comment row inserted (SQLite does not enforce the
foreign keys, so the insert commits whether or not the post exists) and is
redirected back to the post page; an unauthenticated caller gets a flash
notice and a redirect to login.  Otherwise the post is fetched, a missing id
aborts with 404, and the post page is rendered. -/
def show_post (store : Store) (session : Option Nat) (post_id : Nat)
    (posted : Bool) (text : String) : HandlerResult :=
  let errors := commentFormErrors text
  if posted = true ∧ errors = [] then
    match session with
    | some uid =>
        let c : Comment :=
          { id := store.nextCommentId, text := text, author_id := uid,
            blog_post_id := post_id }
        let store2 : Store :=
          { store with comments := store.comments ++ [c],
                       nextCommentId := store.nextCommentId + 1 }
        { store := store2, response := .redirect (urlForShowPost post_id), flashes := [],
          session := session }
    | none =>
        { store := store, response := .redirect urlForLogin,
          flashes := ["You need to log in to the site in order to comment on blog posts."],
          session := session }
  else
    match getPost store post_id with
    | none =>
        { store := store, response := .httpAbort 404, flashes := [], session := session }
    | some _ =>
        { store := store, response := .render "post.html" 200 errors, flashes := [],
          session := session }

/-- The new_post handler (src/main.py lines 247-270), admin-gated.  On a valid
submission the post row is built with the current date string and the admin as
author and committed; a duplicate title violates the UNIQUE constraint, the
IntegrityError is caught, the transaction rolled back, a message flashed and
the form re-rendered with status 400.  An invalid submission re-renders the
form. -/
def new_post (v : Validators) (store : Store) (session : Option Nat) (today : String)
    (title subtitle bg_img_url blog_content : String) : HandlerResult :=
  admin_only session store (fun _ =>
    let errors := addPostFormErrors v title subtitle bg_img_url blog_content
    if errors = [] then
      if store.blog_posts.any (fun p => p.title == title) then
        { store := store,
          response := .render "make-post.html" 400 [],
          flashes := ["A blog post with that title already exists. Please choose a different title."],
          session := session }
      else
        let p : BlogPost :=
          { id := store.nextPostId, title := title, subtitle := subtitle, date := today,
            body := blog_content, author_id := currentUserId session,
            img_url := bg_img_url }
        let store2 : Store :=
          { store with blog_posts := store.blog_posts ++ [p],
                       nextPostId := store.nextPostId + 1 }
        { store := store2, response := .redirect urlForGetAllPosts, flashes := [],
          session := session }
    else
      { store := store, response := .render "make-post.html" 200 errors, flashes := [],
        session := session })

/-- Field assignments of the edit_post handler body (src/main.py lines
278-281): title, subtitle, image URL and body are overwritten; id, date and
author_id are not assigned. -/
def editedRow (title subtitle bg_img_url blog_content : String) (p : BlogPost) : BlogPost :=
  { p with title := title,
           subtitle := subtitle,
           img_url := bg_img_url,
           body := blog_content }

/-- The edit_post handler (src/main.py lines 272-291), admin-gated.  A missing
post id aborts with 404.  On a valid submission the title, subtitle, image URL
and body of the row are overwritten (author_id and date are not touched) and
the caller redirected to the post view; a title clashing with a different row
violates the UNIQUE constraint and, since edit_post has no try/except, the
IntegrityError surfaces as an uncaught exception (HTTP 500) with nothing
committed.  An invalid submission re-renders the form pre-filled. -/
def edit_post (v : Validators) (store : Store) (session : Option Nat) (post_id : Nat)
    (title subtitle bg_img_url blog_content : String) : HandlerResult :=
  admin_only session store (fun _ =>
    match getPost store post_id with
    | none =>
        { store := store, response := .httpAbort 404, flashes := [], session := session }
    | some _ =>
        let errors := addPostFormErrors v title subtitle bg_img_url blog_content
        if errors = [] then
          if store.blog_posts.any (fun p => p.id != post_id && p.title == title) then
            { store := store, response := .httpAbort 500, flashes := [], session := session }
          else
            let store2 : Store :=
              { store with blog_posts := store.blog_posts.map (fun p =>
                  if p.id == post_id then editedRow title subtitle bg_img_url blog_content p
                  else p) }
            { store := store2, response := .redirect (urlForShowPost post_id), flashes := [],
              session := session }
        else
          { store := store, response := .render "make-post.html" 200 errors, flashes := [],
            session := session })

/-- The delete_post handler (src/main.py lines 293-301), admin-gated.  A
missing post id aborts with 404.  Deleting a post that owns no comment removes
the row and redirects to the post list.  Deleting a post that owns comments
makes SQLAlchemy (whose relationship has no delete cascade) null out the
non-nullable comments.blog_post_id column, which raises IntegrityError at
commit; the handler does not catch it, so the request fails with HTTP 500 and
nothing is committed. -/
def delete_post (store : Store) (session : Option Nat) (post_id : Nat) : HandlerResult :=
  admin_only session store (fun _ =>
    match getPost store post_id with
    | none =>
        { store := store, response := .httpAbort 404, flashes := [], session := session }
    | some p =>
        if store.comments.any (fun c => c.blog_post_id == p.id) then
          { store := store, response := .httpAbort 500, flashes := [], session := session }
        else
          let store2 : Store :=
            { store with blog_posts := store.blog_posts.filter (fun q => q.id != post_id) }
          { store := store2, response := .redirect urlForGetAllPosts, flashes := [],
            session := session })

/-- Referential integrity of the comments table (spec section 3): every
comment references an existing user and an existing blog post. -/
def commentRefsOk (s : Store) : Prop :=
  ∀ c ∈ s.comments,
    (∃ u ∈ s.users, u.id = c.author_id) ∧ (∃ p ∈ s.blog_posts, p.id = c.blog_post_id)

instance (s : Store) : Decidable (commentRefsOk s) := by
  unfold commentRefsOk
  infer_instance

/-- Concrete stand-in for the external wtforms validators, used to instantiate
the theorems at concrete inputs. -/
def modelValidators : Validators :=
  { emailOk := fun s => s.toList.contains '@',
    urlOk := fun s => s.toList.take 4 == "http".toList }

/-- Concrete stand-in for the external werkzeug hashing collaborator, used to
instantiate the theorems at concrete inputs; the stored string carries the
scrypt method prefix and the salt, as the werkzeug format does. -/
def modelHasher : PasswordHasher :=
  { generate := fun p => "scrypt:32768:8:1$abcdefghijklmnop$" ++ p,
    check := fun stored provided => stored == "scrypt:32768:8:1$abcdefghijklmnop$" ++ provided }

/-- Concrete fixture: the administrator row (id 1). -/
def adminUser : User :=
  { id := 1, email := "admin@example.com", password := modelHasher.generate "adminpass123",
    name := "Admin User" }

/-- Concrete fixture: a regular (non-admin) user row. -/
def alice : User :=
  { id := 2, email := "alice@example.com", password := modelHasher.generate "password123",
    name := "Alice" }

/-- Concrete fixture: a blog post row authored by the administrator. -/
def post1 : BlogPost :=
  { id := 1, title := "Test Blog Post", subtitle := "A subtitle", date := "January 01, 2024",
    body := "Content", author_id := 1, img_url := "https://example.com/img.jpg" }

/-- Concrete fixture: a comment by alice on post1. -/
def comment1 : Comment :=
  { id := 1, text := "Nice post", author_id := 2, blog_post_id := 1 }

/-- Concrete fixture: a store with both users, one post and one comment on it. -/
def baseStore : Store :=
  { users := [adminUser, alice], blog_posts := [post1], comments := [comment1],
    nextUserId := 3, nextPostId := 2, nextCommentId := 2 }

/-- Concrete fixture: a store whose single post owns no comment. -/
def storeNoComments : Store :=
  { users := [adminUser], blog_posts := [post1], comments := [],
    nextUserId := 2, nextPostId := 2, nextCommentId := 1 }

end BlogsSite

namespace BlogsSite

/-- C3: a caller that is unauthenticated or authenticated as a user other than
id 1 gets a 403 from each of the create-post, edit-post and delete-post
handlers, with the store, the flash list and the session untouched — the
admin_only gate fires before any effect of the handler body. -/
theorem admin_gate_forbidden (v : Validators) (store : Store) (session : Option Nat)
    (today title subtitle bg_img_url blog_content : String) (post_id : Nat)
    (h : session ≠ some 1) :
    new_post v store session today title subtitle bg_img_url blog_content =
      { store := store, response := .httpAbort 403, flashes := [], session := session } ∧
    edit_post v store session post_id title subtitle bg_img_url blog_content =
      { store := store, response := .httpAbort 403, flashes := [], session := session } ∧
    delete_post store session post_id =
      { store := store, response := .httpAbort 403, flashes := [], session := session } := by
  have hgate : ∀ body, admin_only session store body =
      { store := store, response := .httpAbort 403, flashes := [], session := session } := by
    intro body
    cases session with
    | none => rfl
    | some uid =>
        have huid : uid ≠ 1 := fun he => h (by rw [he])
        simp [admin_only, huid]
  exact ⟨hgate _, hgate _, hgate _⟩

/-- Witness for C3 at the concrete non-admin session `some 2`. -/
theorem admin_gate_forbidden_witness :
    new_post modelValidators baseStore (some 2) "May 01, 2025" "T" "S"
        "https://example.com/i.jpg" "B" =
      { store := baseStore, response := .httpAbort 403, flashes := [], session := some 2 } ∧
    edit_post modelValidators baseStore (some 2) 1 "T" "S" "https://example.com/i.jpg" "B" =
      { store := baseStore, response := .httpAbort 403, flashes := [], session := some 2 } ∧
    delete_post baseStore (some 2) 1 =
      { store := baseStore, response := .httpAbort 403, flashes := [], session := some 2 } :=
  admin_gate_forbidden modelValidators baseStore (some 2) "May 01, 2025" "T" "S"
    "https://example.com/i.jpg" "B" 1 (by decide)

/-- C7: registering with an email that exactly equals a stored email leaves
the whole store unchanged (no second user, the stored hash untouched), flashes
the already-exists message and redirects the caller to login. -/
theorem register_duplicate_email (v : Validators) (h : PasswordHasher) (store : Store)
    (session : Option Nat) (email password name : String) (u : User)
    (hform : registerFormErrors v email password name = [])
    (hex : findUserByEmail store email = some u) :
    register v h store session email password name =
      { store := store, response := .redirect "login",
        flashes := ["Email " ++ email ++ " already exists! Login instead."],
        session := session } := by
  simp [register, hform, hex]

/-- C2: submitting create-post as the admin with a title already stored fails
atomically: the whole store is returned unchanged (no row committed in any
table, the original post untouched), the error is flashed and the form is
re-rendered with the non-success status 400; the process does not crash (the
handler returns an ordinary response). -/
theorem new_post_duplicate_title (v : Validators) (store : Store)
    (today title subtitle bg_img_url blog_content : String)
    (hform : addPostFormErrors v title subtitle bg_img_url blog_content = [])
    (hdup : ∃ p ∈ store.blog_posts, p.title = title) :
    new_post v store (some 1) today title subtitle bg_img_url blog_content =
      { store := store,
        response := .render "make-post.html" 400 [],
        flashes := ["A blog post with that title already exists. Please choose a different title."],
        session := some 1 } := by
  have hany : store.blog_posts.any (fun p => p.title == title) = true := by
    rw [List.any_eq_true]
    obtain ⟨p, hp, ht⟩ := hdup
    exact ⟨p, hp, by simp [ht]⟩
  simp [new_post, admin_only, hform, hany]

/-- Witness for C2: re-creating the stored title of post1. -/
theorem new_post_duplicate_title_witness :
    new_post modelValidators baseStore (some 1) "May 01, 2025" "Test Blog Post" "S2"
        "https://example.com/2.jpg" "B2" =
      { store := baseStore,
        response := .render "make-post.html" 400 [],
        flashes := ["A blog post with that title already exists. Please choose a different title."],
        session := some 1 } :=
  new_post_duplicate_title modelValidators baseStore "May 01, 2025" "Test Blog Post" "S2"
    "https://example.com/2.jpg" "B2" (by decide) (by decide)

/-- Witness for C7: re-registering with the stored email of alice. -/
theorem register_duplicate_email_witness :
    register modelValidators modelHasher baseStore none "alice@example.com" "secret99" "Bob" =
      { store := baseStore, response := .redirect "login",
        flashes := ["Email alice@example.com already exists! Login instead."],
        session := none } :=
  register_duplicate_email modelValidators modelHasher baseStore none "alice@example.com"
    "secret99" "Bob" alice (by decide) (by decide)

/-- C6: a successful admin edit overwrites exactly the title, subtitle, image
URL and body of the addressed post; its id, author and date fields are the
ones it had before the edit, every other row of every table is unchanged, and
the caller is redirected to that post's view page. -/
theorem edit_post_frame (v : Validators) (store : Store) (post_id : Nat) (p : BlogPost)
    (title subtitle bg_img_url blog_content : String)
    (hp : getPost store post_id = some p)
    (hform : addPostFormErrors v title subtitle bg_img_url blog_content = [])
    (huniq : ∀ q ∈ store.blog_posts, q.id ≠ post_id → q.title ≠ title) :
    (edit_post v store (some 1) post_id title subtitle bg_img_url blog_content).response =
      .redirect ("/" ++ toString post_id) ∧
    getPost (edit_post v store (some 1) post_id title subtitle bg_img_url blog_content).store
        post_id =
      some { id := p.id, title := title, subtitle := subtitle, date := p.date,
             body := blog_content, author_id := p.author_id, img_url := bg_img_url } ∧
    (edit_post v store (some 1) post_id title subtitle bg_img_url blog_content).store.users =
      store.users ∧
    (edit_post v store (some 1) post_id title subtitle bg_img_url blog_content).store.comments =
      store.comments ∧
    (∀ q ∈ store.blog_posts, q.id ≠ post_id →
      q ∈ (edit_post v store (some 1) post_id title subtitle bg_img_url
            blog_content).store.blog_posts) := by
  have hp2 : store.blog_posts.find? (fun q => q.id == post_id) = some p := hp
  have hpid : p.id = post_id := by
    have h3 := List.find?_some hp2
    simpa using h3
  have hany : store.blog_posts.any (fun q => q.id != post_id && q.title == title) = false := by
    rw [List.any_eq_false]
    intro q hq
    simp only [Bool.and_eq_true, bne_iff_ne, beq_iff_eq, not_and]
    exact fun hne => huniq q hq hne
  have hred : edit_post v store (some 1) post_id title subtitle bg_img_url blog_content =
      { store := { store with blog_posts := store.blog_posts.map (fun q =>
          if q.id == post_id then editedRow title subtitle bg_img_url blog_content q else q) },
        response := .redirect (urlForShowPost post_id), flashes := [], session := some 1 } := by
    simp [edit_post, admin_only, hp, hform, hany]
  refine ⟨by simp [hred, urlForShowPost], ?_, by simp [hred], by simp [hred], ?_⟩
  · rw [hred]
    show ((store.blog_posts.map (fun q =>
        if q.id == post_id then editedRow title subtitle bg_img_url blog_content q else q)).find?
          (fun q => q.id == post_id)) = _
    rw [List.find?_map]
    have hcomp : ((fun q : BlogPost => q.id == post_id) ∘ (fun q =>
        if q.id == post_id then editedRow title subtitle bg_img_url blog_content q else q)) =
        fun q : BlogPost => q.id == post_id := by
      funext q
      by_cases hq : q.id = post_id
      · simp [hq, editedRow]
      · simp [hq]
    rw [hcomp]
    rw [show store.blog_posts.find? (fun q => q.id == post_id) = some p from hp]
    simp [hpid, editedRow]
  · intro q hq hne
    rw [hred]
    refine List.mem_map.mpr ⟨q, hq, ?_⟩
    have hq2 : (q.id == post_id) = false := by simp [hne]
    simp [hq2]

/-- Witness for C6: editing post1 in the base store. -/
theorem edit_post_frame_witness :
    (edit_post modelValidators baseStore (some 1) 1 "New Title" "New Sub"
        "https://example.com/new.jpg" "New body").response = .redirect ("/" ++ toString 1) ∧
    getPost (edit_post modelValidators baseStore (some 1) 1 "New Title" "New Sub"
        "https://example.com/new.jpg" "New body").store 1 =
      some { id := post1.id, title := "New Title", subtitle := "New Sub", date := post1.date,
             body := "New body", author_id := post1.author_id,
             img_url := "https://example.com/new.jpg" } ∧
    (edit_post modelValidators baseStore (some 1) 1 "New Title" "New Sub"
        "https://example.com/new.jpg" "New body").store.users = baseStore.users ∧
    (edit_post modelValidators baseStore (some 1) 1 "New Title" "New Sub"
        "https://example.com/new.jpg" "New body").store.comments = baseStore.comments ∧
    (∀ q ∈ baseStore.blog_posts, q.id ≠ 1 →
      q ∈ (edit_post modelValidators baseStore (some 1) 1 "New Title" "New Sub"
            "https://example.com/new.jpg" "New body").store.blog_posts) :=
  edit_post_frame modelValidators baseStore 1 post1 "New Title" "New Sub"
    "https://example.com/new.jpg" "New body" (by decide) (by decide) (by decide)

/-- Counterexample to C1 as stated: in the base store post1 owns comment1, and
the admin delete of post id 1 fails with an uncaught IntegrityError (HTTP 500)
— the post is still stored afterwards and its comment row is still there, so
the delete removes neither the post nor its comments. -/
theorem delete_post_with_comments_counterexample :
    delete_post baseStore (some 1) 1 =
      { store := baseStore, response := .httpAbort 500, flashes := [], session := some 1 } ∧
    getPost (delete_post baseStore (some 1) 1).store 1 = some post1 ∧
    comment1 ∈ (delete_post baseStore (some 1) 1).store.comments ∧
    comment1.blog_post_id = 1 := by
  refine ⟨by decide, by decide, ?_, by decide⟩
  show comment1 ∈ baseStore.comments
  decide

/-- C1 as amended: deleting a post that owns no comment removes it — a
subsequent view of its id is a 404, it is gone from the post list — leaves the
comments table unchanged and redirects to the post list; deleting a post that
still owns comments fails with an uncaught IntegrityError (HTTP 500) and
removes nothing from any table. -/
theorem delete_post_amended (store : Store) (post_id : Nat) (p : BlogPost)
    (hp : getPost store post_id = some p) :
    ((∀ c ∈ store.comments, c.blog_post_id ≠ p.id) →
      getPost (delete_post store (some 1) post_id).store post_id = none ∧
      (show_post (delete_post store (some 1) post_id).store none post_id false
          "dummy").response = .httpAbort 404 ∧
      p ∉ get_all_posts (delete_post store (some 1) post_id).store ∧
      (delete_post store (some 1) post_id).store.comments = store.comments ∧
      (delete_post store (some 1) post_id).store.users = store.users ∧
      (delete_post store (some 1) post_id).response = .redirect "/") ∧
    ((∃ c ∈ store.comments, c.blog_post_id = p.id) →
      delete_post store (some 1) post_id =
        { store := store, response := .httpAbort 500, flashes := [], session := some 1 }) := by
  constructor
  · intro hnc
    have hany : store.comments.any (fun c => c.blog_post_id == p.id) = false := by
      rw [List.any_eq_false]
      intro c hc
      simpa using hnc c hc
    have hred : delete_post store (some 1) post_id =
        { store := { store with
            blog_posts := store.blog_posts.filter (fun q => q.id != post_id) },
          response := .redirect urlForGetAllPosts, flashes := [], session := some 1 } := by
      simp [delete_post, admin_only, hp, hany]
    have hgone : ((store.blog_posts.filter (fun q => q.id != post_id)).find?
        (fun q => q.id == post_id)) = none := by
      rw [List.find?_eq_none]
      intro q hq
      have hne : (q.id != post_id) = true := (List.mem_filter.mp hq).2
      simpa using hne
    refine ⟨?_, ?_, ?_, by simp [hred], by simp [hred], by simp [hred, urlForGetAllPosts]⟩
    · rw [hred]
      exact hgone
    · rw [hred]
      have hg2 : getPost { store with
          blog_posts := store.blog_posts.filter (fun q => q.id != post_id) } post_id = none :=
        hgone
      simp [show_post, hg2]
    · rw [hred]
      intro hmem
      have hfil := (List.mem_filter.mp hmem).2
      have hp2 : store.blog_posts.find? (fun q => q.id == post_id) = some p := hp
      have hpid : p.id = post_id := by
        have h3 := List.find?_some hp2
        simpa using h3
      simp [hpid] at hfil
  · intro hex
    have hany : store.comments.any (fun c => c.blog_post_id == p.id) = true := by
      rw [List.any_eq_true]
      obtain ⟨c, hc, he⟩ := hex
      exact ⟨c, hc, by simp [he]⟩
    simp [delete_post, admin_only, hp, hany]

/-- Witness for the amended C1 at the comment-free store. -/
theorem delete_post_amended_witness :
    ((∀ c ∈ storeNoComments.comments, c.blog_post_id ≠ post1.id) →
      getPost (delete_post storeNoComments (some 1) 1).store 1 = none ∧
      (show_post (delete_post storeNoComments (some 1) 1).store none 1 false
          "dummy").response = .httpAbort 404 ∧
      post1 ∉ get_all_posts (delete_post storeNoComments (some 1) 1).store ∧
      (delete_post storeNoComments (some 1) 1).store.comments = storeNoComments.comments ∧
      (delete_post storeNoComments (some 1) 1).store.users = storeNoComments.users ∧
      (delete_post storeNoComments (some 1) 1).response = .redirect "/") ∧
    ((∃ c ∈ storeNoComments.comments, c.blog_post_id = post1.id) →
      delete_post storeNoComments (some 1) 1 =
        { store := storeNoComments, response := .httpAbort 500, flashes := [],
          session := some 1 }) :=
  delete_post_amended storeNoComments 1 post1 (by decide)

/-- C4: the two failing login runs both flash the identical generic message
and establish no session, but they are distinguishable to the caller: the
unknown-email branch redirects to the relative location "login" (redirect at
src/main.py line 196) while the wrong-password branch redirects to the
absolute "/login" (url_for at line 208), so the responses differ and the
Location value leaks whether the email is registered. -/
theorem login_unknown_vs_wrong_password_distinguishable :
    (login modelValidators modelHasher baseStore none "alice@example.com" "wrongpass").flashes =
      ["Credentials are not valid!"] ∧
    (login modelValidators modelHasher baseStore none "ghost@example.com" "wrongpass").flashes =
      ["Credentials are not valid!"] ∧
    (login modelValidators modelHasher baseStore none "alice@example.com" "wrongpass").session =
      none ∧
    (login modelValidators modelHasher baseStore none "ghost@example.com" "wrongpass").session =
      none ∧
    (login modelValidators modelHasher baseStore none "alice@example.com" "wrongpass").response =
      .redirect "/login" ∧
    (login modelValidators modelHasher baseStore none "ghost@example.com" "wrongpass").response =
      .redirect "login" ∧
    (login modelValidators modelHasher baseStore none "alice@example.com" "wrongpass").response ≠
      (login modelValidators modelHasher baseStore none "ghost@example.com"
        "wrongpass").response := by
  decide

/-- C5: POSTing a comment as an authenticated user to a post id that does not
exist inserts a comment row referencing the missing post (the comment branch
of show_post runs before the 404 check, and SQLite does not enforce the
foreign key), breaking the referential-integrity invariant. -/
theorem comment_to_missing_post_inserted :
    getPost storeNoComments 7 = none ∧
    (show_post storeNoComments (some 1) 7 true "hello").store.comments =
      [{ id := 1, text := "hello", author_id := 1, blog_post_id := 7 }] ∧
    (show_post storeNoComments (some 1) 7 true "hello").response = .redirect "/7" ∧
    ¬ commentRefsOk (show_post storeNoComments (some 1) 7 true "hello").store := by
  refine ⟨by decide, by decide, by decide, by decide⟩

/-- C8: a valid registration with a fresh email creates the user, who is then
retrievable by email; the stored password is the hash, which differs from the
submitted plaintext (the hashing collaborator's guarantee); and the session is
set to the fresh user id at once (no separate login), redirecting to the post
list. -/
theorem register_success (v : Validators) (h : PasswordHasher) (store : Store)
    (session : Option Nat) (email password name : String)
    (hform : registerFormErrors v email password name = [])
    (hnew : findUserByEmail store email = none)
    (hhash : h.generate password ≠ password) :
    findUserByEmail (register v h store session email password name).store email =
      some { id := store.nextUserId, email := email, password := h.generate password,
             name := name } ∧
    ({ id := store.nextUserId, email := email, password := h.generate password,
       name := name } : User).password ≠ password ∧
    (register v h store session email password name).session = some store.nextUserId ∧
    (register v h store session email password name).response = .redirect "/" := by
  have hn2 : store.users.find? (fun u => u.email == email) = none := hnew
  have hred : register v h store session email password name =
      { store := { store with
          users := store.users ++ [{ id := store.nextUserId, email := email,
                                     password := h.generate password, name := name }],
          nextUserId := store.nextUserId + 1 },
        response := .redirect urlForGetAllPosts, flashes := [],
        session := some store.nextUserId } := by
    simp [register, hform, hnew]
  refine ⟨?_, hhash, by simp [hred], by simp [hred, urlForGetAllPosts]⟩
  rw [hred]
  show (List.find? (fun u => u.email == email)
      (store.users ++ [⟨store.nextUserId, email, h.generate password, name⟩])) = _
  rw [List.find?_append, hn2]
  simp

/-- Witness for C8: registering bob in the comment-free store. -/
theorem register_success_witness :
    findUserByEmail (register modelValidators modelHasher storeNoComments none
        "bob@example.com" "bobpass99" "Bob").store "bob@example.com" =
      some { id := storeNoComments.nextUserId, email := "bob@example.com",
             password := modelHasher.generate "bobpass99", name := "Bob" } ∧
    ({ id := storeNoComments.nextUserId, email := "bob@example.com",
       password := modelHasher.generate "bobpass99", name := "Bob" } : User).password ≠
      "bobpass99" ∧
    (register modelValidators modelHasher storeNoComments none "bob@example.com" "bobpass99"
      "Bob").session = some storeNoComments.nextUserId ∧
    (register modelValidators modelHasher storeNoComments none "bob@example.com" "bobpass99"
      "Bob").response = .redirect "/" :=
  register_success modelValidators modelHasher storeNoComments none "bob@example.com"
    "bobpass99" "Bob" (by decide) (by decide) (by decide)

/-- C9: on an existing post, an authenticated POST of a valid comment inserts
exactly one comment row, attributed to the caller and linked to that post,
leaving all other tables unchanged, and redirects back to the same post page;
an unauthenticated POST changes nothing, flashes the notice and redirects
toward login. -/
theorem show_post_comment (store : Store) (post_id : Nat) (p : BlogPost) (uid : Nat)
    (text : String)
    (_hp : getPost store post_id = some p)
    (htext : commentFormErrors text = []) :
    ((show_post store (some uid) post_id true text).store.comments =
      store.comments ++ [{ id := store.nextCommentId, text := text, author_id := uid,
                           blog_post_id := post_id }] ∧
     (show_post store (some uid) post_id true text).store.blog_posts = store.blog_posts ∧
     (show_post store (some uid) post_id true text).store.users = store.users ∧
     (show_post store (some uid) post_id true text).response =
       .redirect ("/" ++ toString post_id)) ∧
    ((show_post store none post_id true text).store = store ∧
     (show_post store none post_id true text).response = .redirect "/login" ∧
     (show_post store none post_id true text).flashes =
       ["You need to log in to the site in order to comment on blog posts."]) := by
  constructor
  · refine ⟨?_, ?_, ?_, ?_⟩ <;> simp [show_post, htext, urlForShowPost]
  · refine ⟨?_, ?_, ?_⟩ <;> simp [show_post, htext, urlForLogin]

/-- Witness for C9: alice comments on post1 in the base store. -/
theorem show_post_comment_witness :
    ((show_post baseStore (some 2) 1 true "Great read").store.comments =
      baseStore.comments ++ [{ id := baseStore.nextCommentId, text := "Great read",
                               author_id := 2, blog_post_id := 1 }] ∧
     (show_post baseStore (some 2) 1 true "Great read").store.blog_posts =
       baseStore.blog_posts ∧
     (show_post baseStore (some 2) 1 true "Great read").store.users = baseStore.users ∧
     (show_post baseStore (some 2) 1 true "Great read").response =
       .redirect ("/" ++ toString 1)) ∧
    ((show_post baseStore none 1 true "Great read").store = baseStore ∧
     (show_post baseStore none 1 true "Great read").response = .redirect "/login" ∧
     (show_post baseStore none 1 true "Great read").flashes =
       ["You need to log in to the site in order to comment on blog posts."]) :=
  show_post_comment baseStore 1 post1 2 "Great read" (by decide) (by decide)

/-- C10: a login POST whose password has fewer than 6 characters is rejected
by the Length validator of the login form before any credential check: the
store, the session and the flash list are untouched and the handler re-renders
the login form carrying the field-level length error, whatever the email and
whatever the store holds. -/
theorem login_short_password (v : Validators) (h : PasswordHasher) (store : Store)
    (session : Option Nat) (email password : String)
    (hshort : password.length < 6) :
    (login v h store session email password).store = store ∧
    (login v h store session email password).session = session ∧
    (login v h store session email password).flashes = [] ∧
    (login v h store session email password).response =
      .render "login.html" 200 (loginFormErrors v email password) ∧
    "Password must be at least 6 chars." ∈ loginFormErrors v email password := by
  have hmem : "Password must be at least 6 chars." ∈ loginFormErrors v email password := by
    unfold loginFormErrors
    have hlt : ¬ password.length ≥ 6 := by omega
    simp [hlt]
  have hne : loginFormErrors v email password ≠ [] := by
    intro he
    rw [he] at hmem
    exact List.not_mem_nil _ hmem
  refine ⟨?_, ?_, ?_, ?_, hmem⟩ <;> simp [login, hne]

/-- Witness for C10: a three-character password. -/
theorem login_short_password_witness :
    (login modelValidators modelHasher baseStore none "alice@example.com" "abc").store =
      baseStore ∧
    (login modelValidators modelHasher baseStore none "alice@example.com" "abc").session =
      none ∧
    (login modelValidators modelHasher baseStore none "alice@example.com" "abc").flashes = [] ∧
    (login modelValidators modelHasher baseStore none "alice@example.com" "abc").response =
      .render "login.html" 200 (loginFormErrors modelValidators "alice@example.com" "abc") ∧
    "Password must be at least 6 chars." ∈
      loginFormErrors modelValidators "alice@example.com" "abc" :=
  login_short_password modelValidators modelHasher baseStore none "alice@example.com" "abc"
    (by decide)

end BlogsSite
